import Mathlib

/-!
Shallow embedding of the page-organized document store
(src/collection_page.rs, src/collection_file.rs, src/collection.rs).

Machine integers (`u64`) are modelled as `Nat` with explicit wrap-around
operations `u64add` / `u64sub` where the Rust code performs `u64`
arithmetic.  Documents are modelled after the repository's own test
document type `MyDocument { id: u64, name: String }` (src/collection.rs),
with the string carried as its list of bytes.  `bincode`'s default
configuration serializes a `u64` as 8 little-endian bytes, a `String` as
a `u64` length followed by its bytes, and a `Vec` as a `u64` length
followed by its elements; `bincode::serialized_size` for this document is
therefore `8 + 8 + name.length`.  Files are modelled as a page store
(latest write to a page number wins) together with the `number_of_pages`
counter kept by `CollectionFile`.
-/

deriving instance DecidableEq for Except

/-- `COLLECTION_PAGE_DATA_SIZE` from src/collection_page.rs. -/
def COLLECTION_PAGE_DATA_SIZE : Nat := 62000

/-- `COLLECTION_PAGE_SIZE` from src/main.rs (the physical page extent). -/
def COLLECTION_PAGE_SIZE : Nat := 64000

/-- Modulus of `u64` arithmetic. -/
def U64MOD : Nat := 18446744073709551616

/-- Wrapping `u64` addition. -/
def u64add (a b : Nat) : Nat := (a + b) % U64MOD

/-- Wrapping `u64` subtraction (two's-complement wrap-around on underflow). -/
def u64sub (a b : Nat) : Nat := (a + U64MOD - b % U64MOD) % U64MOD

/-- The test document type of src/collection.rs: `{ id: u64, name: String }`,
the string kept as its byte list. -/
structure MyDocument where
  id : Nat
  name : List Nat
deriving Repr, DecidableEq

/-- `bincode::serialized_size` of a `MyDocument`: 8 bytes for the `u64` id,
8 bytes of string-length prefix, then the string's bytes. -/
def serializedSize (d : MyDocument) : Nat := 8 + 8 + d.name.length

/-- Header of a collection page (src/collection_page.rs). -/
structure CollectionPageHeader where
  page_number : Nat
  number_of_documents : Nat
  free_space_available : Nat
deriving Repr, DecidableEq

/-- A collection page: header plus ordered document list (src/collection_page.rs). -/
structure CollectionPage where
  header : CollectionPageHeader
  documents : List MyDocument
deriving Repr, DecidableEq

/-- Page-level errors (src/collection_page.rs). -/
inductive CollectionPageError where
  | NoFreeSpaceAvailable
  | DocumentNotFound
deriving Repr, DecidableEq

/-- `CollectionPage::new` (src/collection_page.rs). -/
def CollectionPage.new (page_number : Nat) : CollectionPage :=
  { header := { page_number := page_number
              , number_of_documents := 0
              , free_space_available := COLLECTION_PAGE_DATA_SIZE }
  , documents := [] }

/-- `CollectionPage::insert_document` (src/collection_page.rs): reject when
`free_space_available < document_size`, otherwise push the document,
subtract its size from the free space and bump the document count. -/
def insert_document (p : CollectionPage) (d : MyDocument) :
    Except CollectionPageError CollectionPage :=
  let document_size := serializedSize d
  if p.header.free_space_available < document_size then
    .error .NoFreeSpaceAvailable
  else
    .ok { header := { page_number := p.header.page_number
                    , number_of_documents := u64add p.header.number_of_documents 1
                    , free_space_available := u64sub p.header.free_space_available document_size }
        , documents := p.documents ++ [d] }

/-- `CollectionPage::find_document` (src/collection_page.rs): first document
with the matching id. -/
def find_document (p : CollectionPage) (id : Nat) : Option MyDocument :=
  p.documents.find? (fun d => d.id == id)

/-- Body of the scan loop of `CollectionPage::update_document`
(src/collection_page.rs): on the first id match, fail when
`free_space_available - old_version_size + new_vesion_size >
COLLECTION_PAGE_DATA_SIZE` (evaluated left-to-right in `u64`), otherwise
set `free_space_available -= old_version_size + new_vesion_size` and
replace the document in place.  Returns the new free space and document
list. -/
def updateDocsGo (free : Nat) (nd : MyDocument) :
    List MyDocument → Except CollectionPageError (Nat × List MyDocument)
  | [] => .error .DocumentNotFound
  | d :: rest =>
    if d.id == nd.id then
      let old_version_size := serializedSize d
      let new_vesion_size := serializedSize nd
      if u64add (u64sub free old_version_size) new_vesion_size > COLLECTION_PAGE_DATA_SIZE then
        .error .NoFreeSpaceAvailable
      else
        .ok (u64sub free (u64add old_version_size new_vesion_size), nd :: rest)
    else
      match updateDocsGo free nd rest with
      | .ok (f, rest2) => .ok (f, d :: rest2)
      | .error e => .error e

/-- `CollectionPage::update_document` (src/collection_page.rs).  The header's
`number_of_documents` is left untouched, exactly as in the source. -/
def update_document (p : CollectionPage) (nd : MyDocument) :
    Except CollectionPageError CollectionPage :=
  match updateDocsGo p.header.free_space_available nd p.documents with
  | .ok (f, docs2) =>
      .ok { header := { page_number := p.header.page_number
                      , number_of_documents := p.header.number_of_documents
                      , free_space_available := f }
          , documents := docs2 }
  | .error e => .error e

/-- `Vec::swap_remove`: the element at `i` is replaced by the last element
and the vector shrinks by one. -/
def swapRemove (l : List MyDocument) (i : Nat) : List MyDocument :=
  match l.getLast? with
  | none => l
  | some last => (l.set i last).dropLast

/-- `CollectionPage::remove_document` (src/collection_page.rs): position of
the first id match, then `swap_remove`.  The header is not adjusted,
exactly as in the source (the documented accounting defect). -/
def remove_document (p : CollectionPage) (id : Nat) :
    Except CollectionPageError (MyDocument × CollectionPage) :=
  match p.documents.findIdx? (fun d => d.id == id) with
  | none => .error .DocumentNotFound
  | some i =>
      .ok (p.documents.getD i { id := 0, name := [] },
           { header := p.header, documents := swapRemove p.documents i })

/-- File-level errors (src/collection_file.rs). -/
inductive CollectionFileError where
  | PageNumberTooHighError
deriving Repr, DecidableEq

/-- `CollectionFile` (src/collection_file.rs): the `number_of_pages` counter
plus the byte extents of the backing file, modelled page-wise as an
association list in which the most recent write to a page number comes
first. -/
structure CollectionFile where
  number_of_pages : Nat
  extents : List (Nat × CollectionPage)
deriving Repr, DecidableEq

/-- Content stored in the file at a given page offset, if that extent was
ever written. -/
def readExtent (e : List (Nat × CollectionPage)) (n : Nat) : Option CollectionPage :=
  (e.find? (fun x => x.1 == n)).map (·.2)

/-- A never-written extent reads as all-zero bytes, which `bincode` decodes
as a page with an all-zero header and no documents. -/
def zeroPage : CollectionPage :=
  { header := { page_number := 0, number_of_documents := 0, free_space_available := 0 }
  , documents := [] }

/-- `CollectionFile::read_page` (src/collection_file.rs): fail when
`page_number >= number_of_pages`, otherwise decode the page stored at
that offset. -/
def read_page (f : CollectionFile) (page_number : Nat) :
    Except CollectionFileError CollectionPage :=
  if page_number ≥ f.number_of_pages then
    .error .PageNumberTooHighError
  else
    .ok ((readExtent f.extents page_number).getD zeroPage)

/-- `CollectionFile::read_page_header` (src/collection_file.rs): same bounds
check as `read_page`, decoding only the header prefix of the same bytes. -/
def read_page_header (f : CollectionFile) (page_number : Nat) :
    Except CollectionFileError CollectionPageHeader :=
  (read_page f page_number).map (·.header)

/-- `CollectionFile::write_page` (src/collection_file.rs): reject when
`page.page_number > number_of_pages + 1`; increment `number_of_pages`
when writing exactly at `number_of_pages`; store the encoded page at its
offset. -/
def write_page (f : CollectionFile) (p : CollectionPage) :
    Except CollectionFileError CollectionFile :=
  if p.header.page_number > f.number_of_pages + 1 then
    .error .PageNumberTooHighError
  else
    .ok { number_of_pages :=
            if p.header.page_number = f.number_of_pages then f.number_of_pages + 1
            else f.number_of_pages
        , extents := (p.header.page_number, p) :: f.extents }

/-- Collection-level errors (src/collection.rs). -/
inductive CollectionError where
  | FileError : CollectionFileError → CollectionError
  | PageError : CollectionPageError → CollectionError
  | NotFoundError
  | DocumentTooBig
  | DuplicateError
deriving Repr, DecidableEq

/-- The in-memory id-to-page index (`IdToPageMap`,
src/collection_indexer.rs), modelled as an association list with
`HashMap` semantics: the most recent insertion for a key comes first. -/
def mapGet (m : List (Nat × Nat)) (id : Nat) : Option Nat :=
  (m.find? (fun x => x.1 == id)).map (·.2)

/-- `HashMap::contains_key`. -/
def mapContains (m : List (Nat × Nat)) (id : Nat) : Bool :=
  (m.find? (fun x => x.1 == id)).isSome

/-- `HashMap::insert`: the new binding shadows any older one. -/
def mapInsert (m : List (Nat × Nat)) (id v : Nat) : List (Nat × Nat) :=
  (id, v) :: m

/-- `Collection` (src/collection.rs). -/
structure Collection where
  id_to_page_map : List (Nat × Nat)
  collection_file : CollectionFile
deriving Repr, DecidableEq

/-- `Collection::write_document_to_page` (src/collection.rs): insert the
document into the in-memory page, persist the page, then record
`(doc_id, 0)` in the index — the source inserts the literal `0`, not the
page's number. -/
def write_document_to_page (c : Collection) (doc : MyDocument) (page : CollectionPage) :
    Except CollectionError Collection :=
  match insert_document page doc with
  | .error e => .error (.PageError e)
  | .ok page2 =>
    match write_page c.collection_file page2 with
    | .error e => .error (.FileError e)
    | .ok file2 =>
        .ok { id_to_page_map := mapInsert c.id_to_page_map doc.id 0
            , collection_file := file2 }

/-- Loop body of `Collection::get_first_page_with_enough_space`
(src/collection.rs): for `i` in `0..number_of_pages`, read page `i`'s
header and return the full page at the first header whose
`space_available() >= doc_size`; past the last page, return a fresh page
numbered `number_of_pages`. -/
def firstFitGo (f : CollectionFile) (doc_size : Nat) :
    Nat → Nat → Except CollectionError CollectionPage
  | _, 0 => .ok (CollectionPage.new f.number_of_pages)
  | i, fuel + 1 =>
    match read_page_header f i with
    | .error e => .error (.FileError e)
    | .ok h =>
      if h.free_space_available ≥ doc_size then
        match read_page f i with
        | .error e => .error (.FileError e)
        | .ok p => .ok p
      else
        firstFitGo f doc_size (i + 1) fuel

/-- `Collection::get_first_page_with_enough_space` (src/collection.rs). -/
def get_first_page_with_enough_space (c : Collection) (doc_size : Nat) :
    Except CollectionError CollectionPage :=
  if c.collection_file.number_of_pages = 0 then
    .ok (CollectionPage.new 0)
  else
    firstFitGo c.collection_file doc_size 0 c.collection_file.number_of_pages

/-- `Collection::insert_one` (src/collection.rs): duplicate check on the
index first, then the size check against `COLLECTION_PAGE_DATA_SIZE`,
then first-fit page selection and `write_document_to_page`. -/
def insert_one (c : Collection) (doc : MyDocument) : Except CollectionError Collection :=
  let document_size := serializedSize doc
  if mapContains c.id_to_page_map doc.id then
    .error .DuplicateError
  else if document_size > COLLECTION_PAGE_DATA_SIZE then
    .error .DocumentTooBig
  else
    match get_first_page_with_enough_space c document_size with
    | .error e => .error e
    | .ok page => write_document_to_page c doc page

/-- `Collection::find_by_id` (src/collection.rs): index lookup, page read,
in-page scan; any failure yields `none`. -/
def find_by_id (c : Collection) (id : Nat) : Option MyDocument :=
  match mapGet c.id_to_page_map id with
  | none => none
  | some page_number =>
    match read_page c.collection_file page_number with
    | .error _ => none
    | .ok page => find_document page id

/-- The `while let Ok(page) = read_page(page_number)` loop of
`Collection::find_by` (src/collection.rs), with an explicit iteration
budget: each successful read contributes the page's matching documents
and advances the page number; a failed read ends the loop. -/
def findByGo (c : Collection) (filter : MyDocument → Bool) :
    Nat → Nat → List MyDocument
  | _, 0 => []
  | page_number, fuel + 1 =>
    match read_page c.collection_file page_number with
    | .error _ => []
    | .ok page => page.documents.filter filter ++ findByGo c filter (page_number + 1) fuel

/-- `Collection::find_by` (src/collection.rs): the scan starting at page 0;
`number_of_pages` iterations always suffice (see the termination
theorem). -/
def find_by (c : Collection) (filter : MyDocument → Bool) : List MyDocument :=
  findByGo c filter 0 c.collection_file.number_of_pages

/-- `Collection::update_one` (src/collection.rs): index lookup, page read,
in-place `update_document` on the local page copy.  On success the source
returns `Ok(())` without writing the page back, so the collection state
is returned unchanged.  On `NoFreeSpaceAvailable` the source removes the
document from the local page copy (without persisting) and calls
`insert_one` on the unchanged collection state. -/
def update_one (c : Collection) (doc_update : MyDocument) : Except CollectionError Collection :=
  match mapGet c.id_to_page_map doc_update.id with
  | none => .error .NotFoundError
  | some page_number =>
    match read_page c.collection_file page_number with
    | .error e => .error (.FileError e)
    | .ok page =>
      match update_document page doc_update with
      | .ok _ => .ok c
      | .error .NoFreeSpaceAvailable =>
        match remove_document page doc_update.id with
        | .error e => .error (.PageError e)
        | .ok _ => insert_one c doc_update
      | .error e => .error (.PageError e)

/-!
Byte-level page codec.  `bincode`'s default configuration writes every
`u64` as 8 little-endian bytes; a `String` is its `u64` byte length
followed by its bytes; a `Vec` is its `u64` element count followed by the
elements in order.  `CollectionPage` therefore serializes as the three
header `u64`s, the document count, and the documents.  Decoding reads
exactly what it needs and ignores trailing bytes, which is how
`read_page`'s fixed-size, zero-padded extents decode back to the page
that was written.
-/

/-- The 8 little-endian bytes of a `u64`. -/
def u64leEncode (n : Nat) : List Nat :=
  [n % 256, n / 256 % 256, n / 65536 % 256, n / 16777216 % 256,
   n / 4294967296 % 256, n / 1099511627776 % 256,
   n / 281474976710656 % 256, n / 72057594037927936 % 256]

/-- Read a little-endian `u64` from the front of a byte stream. -/
def decodeU64 : List Nat → Option (Nat × List Nat)
  | b0 :: b1 :: b2 :: b3 :: b4 :: b5 :: b6 :: b7 :: rest =>
      some (b0 + 256 * b1 + 65536 * b2 + 16777216 * b3 + 4294967296 * b4 +
            1099511627776 * b5 + 281474976710656 * b6 + 72057594037927936 * b7,
            rest)
  | _ => none

/-- `bincode` encoding of a `MyDocument`. -/
def encodeDocument (d : MyDocument) : List Nat :=
  u64leEncode d.id ++ u64leEncode d.name.length ++ d.name

/-- `bincode` decoding of a `MyDocument` from the front of a byte stream. -/
def decodeDocument (l : List Nat) : Option (MyDocument × List Nat) :=
  match decodeU64 l with
  | none => none
  | some (id, l1) =>
    match decodeU64 l1 with
    | none => none
    | some (len, l2) =>
      if len ≤ l2.length then some ({ id := id, name := l2.take len }, l2.drop len)
      else none

/-- Concatenated encodings of a document list. -/
def encodeDocumentList (docs : List MyDocument) : List Nat :=
  (docs.map encodeDocument).flatten

/-- Decode a given count of documents from the front of a byte stream. -/
def decodeDocumentList : Nat → List Nat → Option (List MyDocument × List Nat)
  | 0, l => some ([], l)
  | k + 1, l =>
    match decodeDocument l with
    | none => none
    | some (d, l1) =>
      match decodeDocumentList k l1 with
      | none => none
      | some (ds, l2) => some (d :: ds, l2)

/-- `bincode::serialize` of a whole `CollectionPage`, as written by
`CollectionFile::write_page`. -/
def encodeCollectionPage (p : CollectionPage) : List Nat :=
  u64leEncode p.header.page_number ++ u64leEncode p.header.number_of_documents ++
  u64leEncode p.header.free_space_available ++ u64leEncode p.documents.length ++
  encodeDocumentList p.documents

/-- `bincode::deserialize` of a whole `CollectionPage`, as performed by
`CollectionFile::read_page`. -/
def decodeCollectionPage (l : List Nat) : Option (CollectionPage × List Nat) :=
  match decodeU64 l with
  | none => none
  | some (pn, l1) =>
    match decodeU64 l1 with
    | none => none
    | some (nd, l2) =>
      match decodeU64 l2 with
      | none => none
      | some (fs, l3) =>
        match decodeU64 l3 with
        | none => none
        | some (len, l4) =>
          match decodeDocumentList len l4 with
          | none => none
          | some (docs, l5) =>
            some ({ header := { page_number := pn
                              , number_of_documents := nd
                              , free_space_available := fs }
                  , documents := docs }, l5)

/-- A document whose fields fit in `u64`, as every Rust value does. -/
def MyDocument.WF (d : MyDocument) : Prop :=
  d.id < U64MOD ∧ d.name.length < U64MOD

instance (d : MyDocument) : Decidable d.WF := by
  unfold MyDocument.WF; infer_instance

/-- A page whose header fields and document count fit in `u64`, as every
Rust value does. -/
def CollectionPage.WF (p : CollectionPage) : Prop :=
  p.header.page_number < U64MOD ∧ p.header.number_of_documents < U64MOD ∧
  p.header.free_space_available < U64MOD ∧ p.documents.length < U64MOD ∧
  ∀ d ∈ p.documents, d.WF

instance (p : CollectionPage) : Decidable p.WF := by
  unfold CollectionPage.WF; infer_instance

/-- The scan of `CollectionPage::update_document` reaches, on the first
document matching the update's id, the `u64` expressions
`free_space_available - old_version_size + new_vesion_size` (the space
check) and, when the check passes, `free_space_available -
(old_version_size + new_vesion_size)` (the new header value).  This
predicate holds exactly when one of those two `u64` subtractions
underflows (which panics in a debug build and wraps in release). -/
def updateSubUnderflows (p : CollectionPage) (nd : MyDocument) : Bool :=
  match p.documents.find? (fun d => d.id == nd.id) with
  | none => false
  | some d =>
    let old_version_size := serializedSize d
    let new_vesion_size := serializedSize nd
    if p.header.free_space_available < old_version_size then true
    else if u64add (u64sub p.header.free_space_available old_version_size) new_vesion_size >
              COLLECTION_PAGE_DATA_SIZE then false
    else p.header.free_space_available < old_version_size + new_vesion_size

/-- Total serialized size of a list of resident documents. -/
def totalDocumentsSize (docs : List MyDocument) : Nat :=
  docs.foldl (fun acc d => acc + serializedSize d) 0

/-!
Concrete scenario states.  Long document payloads are kept as a `pad`
parameter so the accompanying lemmas stay symbolic in the padding and are
then instantiated with `List.replicate`.
-/

/-- Scenario for insert relocation: the document of serialized size
`16 + pad.length` that fills page 0. -/
def bigDocRel (pad : List Nat) : MyDocument := { id := 1, name := pad }

/-- Scenario for insert relocation: page 0 holding `bigDocRel`, with 14
bytes of free space (`pad.length = 61970` makes the header exact). -/
def pageZeroRel (pad : List Nat) : CollectionPage :=
  { header := { page_number := 0, number_of_documents := 1, free_space_available := 14 }
  , documents := [bigDocRel pad] }

/-- Scenario for insert relocation: a collection with one nearly full page
and its index. -/
def stateRel (pad : List Nat) : Collection :=
  { id_to_page_map := [(1, 0)]
  , collection_file := { number_of_pages := 1, extents := [(0, pageZeroRel pad)] } }

/-- Scenario for insert relocation: the incoming document, serialized size
116, which does not fit page 0's 14 free bytes. -/
def newDocRel : MyDocument := { id := 2, name := List.replicate 100 7 }

/-- Scenario for insert relocation: the page `insert_one` writes for
`newDocRel`, appended as page 1. -/
def pageOneRel : CollectionPage :=
  { header := { page_number := 1, number_of_documents := 1, free_space_available := 61884 }
  , documents := [newDocRel] }

/-- Scenario for insert relocation: the collection state `insert_one`
produces — page 1 holds the document, but the index entry reads `(2, 0)`. -/
def resultRel (pad : List Nat) : Collection :=
  { id_to_page_map := [(2, 0), (1, 0)]
  , collection_file :=
      { number_of_pages := 2
      , extents := [(1, pageOneRel), (0, pageZeroRel pad)] } }

/-- Update-overflow scenario: the stored version, serialized size 16. -/
def oldDocOvf : MyDocument := { id := 1, name := [] }

/-- Update-overflow scenario: page 0 holding `oldDocOvf`, header exact. -/
def pageZeroOvf : CollectionPage :=
  { header := { page_number := 0, number_of_documents := 1, free_space_available := 61984 }
  , documents := [oldDocOvf] }

/-- Update-overflow scenario: the collection around `pageZeroOvf`. -/
def stateOvf : Collection :=
  { id_to_page_map := [(1, 0)]
  , collection_file := { number_of_pages := 1, extents := [(0, pageZeroOvf)] } }

/-- Update-overflow scenario: the new version, serialized size 116, which
makes `update_document`'s space check fire. -/
def newDocOvf : MyDocument := { id := 1, name := List.replicate 100 7 }

/-- In-place-update scenario: the stored version, serialized size 116. -/
def oldDocInPlace : MyDocument := { id := 1, name := List.replicate 100 7 }

/-- In-place-update scenario: page 0 holding `oldDocInPlace`, header exact. -/
def pageZeroInPlace : CollectionPage :=
  { header := { page_number := 0, number_of_documents := 1, free_space_available := 61884 }
  , documents := [oldDocInPlace] }

/-- In-place-update scenario: the collection around `pageZeroInPlace`. -/
def stateInPlace : Collection :=
  { id_to_page_map := [(1, 0)]
  , collection_file := { number_of_pages := 1, extents := [(0, pageZeroInPlace)] } }

/-- In-place-update scenario: the smaller new version, serialized size 16,
which fits the page's free space. -/
def newDocInPlace : MyDocument := { id := 1, name := [] }

/-- Accounting scenario: a document of serialized size 16. -/
def docAcct : MyDocument := { id := 1, name := [] }

/-- Accounting scenario: page 0 holding `docAcct`, with
`free_space_available = 62000 - 16` exactly. -/
def pageAcct : CollectionPage :=
  { header := { page_number := 0, number_of_documents := 1, free_space_available := 61984 }
  , documents := [docAcct] }

/-- Gap-write scenario: a file with exactly one page. -/
def fileOnePage : CollectionFile :=
  { number_of_pages := 1, extents := [(0, CollectionPage.new 0)] }

/-- Underflow scenario: the resident document of serialized size
`16 + pad.length` (`pad.length = 40000` gives 40016). -/
def bigDocUfl (pad : List Nat) : MyDocument := { id := 1, name := pad }

/-- Underflow scenario: page 0 holding `bigDocUfl`, with
`free_space_available = 62000 - 40016 = 21984` exactly accounted. -/
def pageUfl (pad : List Nat) : CollectionPage :=
  { header := { page_number := 0, number_of_documents := 1, free_space_available := 21984 }
  , documents := [bigDocUfl pad] }

/-- Oversize scenario: a document of serialized size `16 + pad.length`
(`pad.length = 62000` makes it exceed the budget). -/
def hugeDoc (pad : List Nat) : MyDocument := { id := 1, name := pad }

/-- Oversize scenario: page 0 already holding a small document with id 1. -/
def pageZeroDup : CollectionPage :=
  { header := { page_number := 0, number_of_documents := 1, free_space_available := 61984 }
  , documents := [{ id := 1, name := [] }] }

/-- Oversize scenario: a collection in which id 1 is already indexed. -/
def stateDup : Collection :=
  { id_to_page_map := [(1, 0)]
  , collection_file := { number_of_pages := 1, extents := [(0, pageZeroDup)] } }

/-- A fresh collection with the synthesized empty page 0, as produced by
`CollectionFile::new` on an empty file. -/
def freshCollection : Collection :=
  { id_to_page_map := []
  , collection_file := { number_of_pages := 1, extents := [(0, CollectionPage.new 0)] } }

/-- Round-trip witness page: one two-byte-named document on page 3. -/
def pageRt : CollectionPage :=
  { header := { page_number := 3, number_of_documents := 1, free_space_available := 61982 }
  , documents := [{ id := 5, name := [104, 105] }] }

/-!
Theorems.  Helper lemmas are stated symbolically in the padding list of
the scenario states; the per-claim theorems instantiate them with
`List.replicate`.
-/

/-- Helper for the insert-relocation scenario (symbolic padding): inserting
`newDocRel` into `stateRel` succeeds and lands on page 1, yet the index
records page 0 and `find_by_id` comes back empty. -/
theorem insertRel_spec (pad : List Nat) :
    insert_one (stateRel pad) newDocRel = .ok (resultRel pad) ∧
    mapGet (resultRel pad).id_to_page_map 2 = some 0 ∧
    readExtent (resultRel pad).collection_file.extents 1 = some pageOneRel ∧
    find_document pageOneRel 2 = some newDocRel ∧
    find_by_id (resultRel pad) 2 = none := by
  refine ⟨?_, ?_, ?_, ?_, ?_⟩
  · simp [insert_one, stateRel, newDocRel, resultRel, mapContains, mapInsert, serializedSize,
      get_first_page_with_enough_space, firstFitGo, read_page_header, read_page, readExtent,
      pageZeroRel, bigDocRel, write_document_to_page, insert_document, write_page, u64add,
      u64sub, U64MOD, COLLECTION_PAGE_DATA_SIZE, zeroPage, List.find?, CollectionPage.new,
      Except.map, pageOneRel]
  · simp [resultRel, mapGet, List.find?]
  · simp [resultRel, readExtent, List.find?]
  · simp [find_document, pageOneRel, newDocRel, List.find?]
  · simp [find_by_id, resultRel, mapGet, read_page, readExtent, find_document, List.find?,
      pageZeroRel, bigDocRel, newDocRel]

/-- C1: refuted on the code.  In a collection whose page 0 has only 14
free bytes, `insert_one` of a fresh 116-byte document succeeds and writes
the document to page 1, but `write_document_to_page` records the literal
page number 0 in the index, so the index does not map the id to the page
the document was written to and `find_by_id` returns `none` instead of
the document. -/
theorem insert_one_misindexes_relocated_document :
    insert_one (stateRel (List.replicate 61970 0)) newDocRel
        = .ok (resultRel (List.replicate 61970 0)) ∧
    mapGet (resultRel (List.replicate 61970 0)).id_to_page_map 2 = some 0 ∧
    readExtent (resultRel (List.replicate 61970 0)).collection_file.extents 1
        = some pageOneRel ∧
    find_document pageOneRel 2 = some newDocRel ∧
    find_by_id (resultRel (List.replicate 61970 0)) 2 = none :=
  insertRel_spec (List.replicate 61970 0)

/-- C2: refuted on the code.  For a stored 16-byte document whose 116-byte
new version makes the page-level update fail with `NoFreeSpaceAvailable`,
`update_one` removes the old copy only from a local page copy (nothing is
persisted), and the relocation `insert_one` then finds the stale index
entry and fails with `DuplicateError`; `find_by_id` still returns the old
version. -/
theorem update_one_overflow_relocation_fails_duplicate :
    update_document pageZeroOvf newDocOvf = .error .NoFreeSpaceAvailable ∧
    update_one stateOvf newDocOvf = .error .DuplicateError ∧
    find_by_id stateOvf 1 = some oldDocOvf := by decide

/-- C3: refuted on the code.  For a stored 116-byte document updated to a
16-byte version that fits the page's free space, `update_one` returns
success but its success branch never calls `write_page`, so the
collection state is unchanged and `find_by_id`, which re-reads the page
from the file, still returns the old content. -/
theorem update_one_in_place_update_not_persisted :
    (update_document pageZeroInPlace newDocInPlace).isOk = true ∧
    update_one stateInPlace newDocInPlace = .ok stateInPlace ∧
    find_by_id stateInPlace 1 = some oldDocInPlace ∧
    oldDocInPlace ≠ newDocInPlace := by decide

/-- C4: refuted on the code.  On a page whose header accounts exactly for
its single 16-byte document (`free = 62000 - 16`), a same-size in-place
update succeeds but sets `free_space_available -= old + new`, leaving
61952 instead of the 61984 the budget-minus-occupancy invariant
requires. -/
theorem update_document_breaks_free_space_invariant :
    pageAcct.header.free_space_available
        = COLLECTION_PAGE_DATA_SIZE - totalDocumentsSize pageAcct.documents ∧
    update_document pageAcct docAcct =
      .ok { header := { page_number := 0, number_of_documents := 1
                      , free_space_available := 61952 }
          , documents := [docAcct] } ∧
    (61952 : Nat) ≠ COLLECTION_PAGE_DATA_SIZE - totalDocumentsSize [docAcct] := by decide

/-- C5: refuted on the code.  With `number_of_pages = 1`, writing a page
numbered 2 (`> number_of_pages`) is accepted — the source guard only
rejects `page_number > number_of_pages + 1` — and `number_of_pages` stays
1, leaving an unreachable gap extent, where the claim requires a
`PageNumberTooHigh` failure. -/
theorem write_page_accepts_gap_page_number :
    write_page fileOnePage (CollectionPage.new 2) =
      .ok { number_of_pages := 1
          , extents := [(2, CollectionPage.new 2), (0, CollectionPage.new 0)] } ∧
    2 > fileOnePage.number_of_pages := by decide

/-- Helper for the oversize scenario: with `pad.length = 62000` the
document's serialized size 62016 exceeds the 62000-byte budget. -/
theorem hugeDoc_size (pad : List Nat) (hpad : pad.length = 62000) :
    serializedSize (hugeDoc pad) > COLLECTION_PAGE_DATA_SIZE := by
  simp [serializedSize, hugeDoc, hpad, COLLECTION_PAGE_DATA_SIZE]

/-- Helper for the oversize scenario (symbolic padding): when the
document's id is already indexed, `insert_one` fails with
`DuplicateError`, not `DocumentTooBig`, because the duplicate check runs
before the size check. -/
theorem hugeDoc_duplicate (pad : List Nat) (hpad : pad.length = 62000) :
    serializedSize (hugeDoc pad) > COLLECTION_PAGE_DATA_SIZE ∧
    insert_one stateDup (hugeDoc pad) = .error .DuplicateError := by
  refine ⟨hugeDoc_size pad hpad, ?_⟩
  simp [insert_one, stateDup, hugeDoc, mapContains, List.find?]

/-- C6 counterexample: a document of serialized size 62016 (over the
budget) whose id 1 is already present in the index makes `insert_one`
fail with `DuplicateError`, not `DocumentTooBig` — the size check is not
step 1. -/
theorem insert_one_oversize_duplicate_gives_duplicate_error :
    serializedSize (hugeDoc (List.replicate 62000 0)) > COLLECTION_PAGE_DATA_SIZE ∧
    insert_one stateDup (hugeDoc (List.replicate 62000 0)) = .error .DuplicateError :=
  hugeDoc_duplicate (List.replicate 62000 0) (List.length_replicate 62000 0)

/-- C6 (amended): for every collection state and every document whose
serialized size exceeds `COLLECTION_PAGE_DATA_SIZE` and whose id is not
already present in the index, `insert_one` fails with `DocumentTooBig`,
regardless of existing page occupancy. -/
theorem insert_one_oversize_nonduplicate_too_big (c : Collection) (doc : MyDocument)
    (hdup : mapContains c.id_to_page_map doc.id = false)
    (hbig : serializedSize doc > COLLECTION_PAGE_DATA_SIZE) :
    insert_one c doc = .error .DocumentTooBig := by
  simp [insert_one, hdup, hbig]

/-- C6 witness: the amended theorem applied to the fresh collection and a
concrete document of serialized size 62016. -/
theorem insert_one_oversize_nonduplicate_too_big_witness :
    insert_one freshCollection (hugeDoc (List.replicate 62000 0))
      = .error .DocumentTooBig :=
  insert_one_oversize_nonduplicate_too_big freshCollection (hugeDoc (List.replicate 62000 0))
    rfl (hugeDoc_size (List.replicate 62000 0) (List.length_replicate 62000 0))

/-- Decoding the 8 little-endian bytes of a `u64` recovers the value and
leaves the rest of the stream untouched. -/
theorem decodeU64_encode (n : Nat) (h : n < U64MOD) (r : List Nat) :
    decodeU64 (u64leEncode n ++ r) = some (n, r) := by
  simp only [u64leEncode, decodeU64, List.cons_append, List.nil_append]
  refine congrArg some (Prod.ext ?_ rfl)
  simp only [U64MOD] at h
  omega

/-- Decoding an encoded document recovers it and leaves the rest of the
stream untouched. -/
theorem decodeDocument_encode (d : MyDocument) (h : d.WF) (r : List Nat) :
    decodeDocument (encodeDocument d ++ r) = some (d, r) := by
  obtain ⟨h1, h2⟩ := h
  rw [encodeDocument, decodeDocument]
  rw [List.append_assoc, List.append_assoc]
  simp only [decodeU64_encode d.id h1, decodeU64_encode d.name.length h2]
  simp [List.take_left' rfl, List.drop_left' rfl]

/-- Decoding the concatenated encodings of a document list, with the
list's length as the stored count, recovers the list. -/
theorem decodeDocumentList_encode (docs : List MyDocument) (h : ∀ d ∈ docs, d.WF)
    (r : List Nat) :
    decodeDocumentList docs.length (encodeDocumentList docs ++ r) = some (docs, r) := by
  induction docs with
  | nil => simp [encodeDocumentList, decodeDocumentList]
  | cons d ds ih =>
    rw [List.length_cons, decodeDocumentList]
    rw [show encodeDocumentList (d :: ds) = encodeDocument d ++ encodeDocumentList ds from by
      simp [encodeDocumentList]]
    rw [List.append_assoc]
    simp only [decodeDocument_encode d (h d (List.mem_cons_self d ds))]
    simp only [ih (fun x hx => h x (List.mem_cons_of_mem d hx))]

/-- C7: confirmed.  For every page value (header plus ordered document
list) whose fields fit in `u64`, decoding the binary encoding of the page
yields the page again, for any trailing bytes — which is why a page
written by `write_page` into a fixed-size extent reads back equal to the
page written. -/
theorem decodeCollectionPage_encodeCollectionPage (p : CollectionPage) (h : p.WF)
    (r : List Nat) :
    decodeCollectionPage (encodeCollectionPage p ++ r) = some (p, r) := by
  obtain ⟨h1, h2, h3, h4, h5⟩ := h
  rw [encodeCollectionPage, decodeCollectionPage]
  rw [List.append_assoc, List.append_assoc, List.append_assoc, List.append_assoc]
  simp only [decodeU64_encode _ h1, decodeU64_encode _ h2, decodeU64_encode _ h3,
    decodeU64_encode _ h4, decodeDocumentList_encode p.documents h5]

/-- C7 witness: the round trip evaluated on a concrete one-document page
with two bytes of trailing padding. -/
theorem decodeCollectionPage_encodeCollectionPage_witness :
    pageRt.WF ∧
    decodeCollectionPage (encodeCollectionPage pageRt ++ [9, 9]) = some (pageRt, [9, 9]) :=
  ⟨by decide, decodeCollectionPage_encodeCollectionPage pageRt (by decide) [9, 9]⟩

/-- Helper for the underflow scenario (symbolic padding): the header
accounts exactly for the resident documents, and the first `u64`
subtraction of `update_document`'s space check underflows because the
resident document's 40016-byte size exceeds the 21984 free bytes. -/
theorem pageUfl_underflow (pad : List Nat) (hpad : pad.length = 40000) :
    (pageUfl pad).header.free_space_available
        = COLLECTION_PAGE_DATA_SIZE - totalDocumentsSize (pageUfl pad).documents ∧
    updateSubUnderflows (pageUfl pad) { id := 1, name := [] } = true := by
  constructor
  · simp [pageUfl, bigDocUfl, totalDocumentsSize, serializedSize, COLLECTION_PAGE_DATA_SIZE,
      hpad]
  · simp [updateSubUnderflows, pageUfl, bigDocUfl, serializedSize, List.find?, hpad,
      COLLECTION_PAGE_DATA_SIZE, u64add, u64sub, U64MOD]

/-- C8: refuted on the code.  On a page whose header equals the budget
minus the total resident size (one 40016-byte document, 21984 free), an
`update_document` call matching that document computes
`free_space_available - old_version_size = 21984 - 40016` in `u64`, which
underflows. -/
theorem update_document_subtractions_underflow :
    (pageUfl (List.replicate 40000 0)).header.free_space_available
        = COLLECTION_PAGE_DATA_SIZE
            - totalDocumentsSize (pageUfl (List.replicate 40000 0)).documents ∧
    updateSubUnderflows (pageUfl (List.replicate 40000 0)) { id := 1, name := [] } = true :=
  pageUfl_underflow (List.replicate 40000 0) (List.length_replicate 40000 0)

/-- Every page `firstFitGo` returns has at least `s` free bytes, provided
`s` is within the page budget: an existing page is only chosen after its
header passes the `space_available() >= doc_size` test, and the fallback
is a fresh page with the whole budget free. -/
theorem firstFitGo_space (f : CollectionFile) (s : Nat)
    (hs : s ≤ COLLECTION_PAGE_DATA_SIZE) :
    ∀ fuel i p, firstFitGo f s i fuel = .ok p → s ≤ p.header.free_space_available := by
  intro fuel
  induction fuel with
  | zero =>
    intro i p h
    simp only [firstFitGo] at h
    cases h
    simpa [CollectionPage.new] using hs
  | succ fuel ih =>
    intro i p h
    rw [firstFitGo, read_page_header] at h
    cases hrp : read_page f i with
    | error e => rw [hrp] at h; simp [Except.map] at h
    | ok q =>
      rw [hrp] at h
      simp only [Except.map] at h
      by_cases hge : q.header.free_space_available ≥ s
      · rw [if_pos hge] at h
        cases h
        exact hge
      · rw [if_neg hge] at h
        exact ih (i + 1) p h

/-- C9: confirmed.  Whenever the document passed `insert_one`'s size check
(serialized size at most the budget) and
`get_first_page_with_enough_space` returns a target page, the page-level
`insert_document` on that page succeeds — it cannot return
`NoFreeSpaceAvailable`. -/
theorem selected_page_insert_document_succeeds (c : Collection) (doc : MyDocument)
    (hs : serializedSize doc ≤ COLLECTION_PAGE_DATA_SIZE)
    (page : CollectionPage)
    (h : get_first_page_with_enough_space c (serializedSize doc) = .ok page) :
    (insert_document page doc).isOk = true := by
  have hfree : serializedSize doc ≤ page.header.free_space_available := by
    rw [get_first_page_with_enough_space] at h
    split at h
    · cases h
      simpa [CollectionPage.new] using hs
    · exact firstFitGo_space c.collection_file (serializedSize doc) hs _ 0 page h
  simp only [insert_document]
  rw [if_neg (Nat.not_lt.mpr hfree)]
  rfl

/-- C9 witness: the theorem applied to the fresh one-page collection and a
16-byte document, for which first-fit selects page 0. -/
theorem selected_page_insert_document_succeeds_witness :
    serializedSize { id := 1, name := [] } ≤ COLLECTION_PAGE_DATA_SIZE ∧
    get_first_page_with_enough_space freshCollection
        (serializedSize { id := 1, name := [] }) = .ok (CollectionPage.new 0) ∧
    (insert_document (CollectionPage.new 0) { id := 1, name := [] }).isOk = true :=
  ⟨by decide, by decide,
   selected_page_insert_document_succeeds freshCollection { id := 1, name := [] }
     (by decide) (CollectionPage.new 0) (by decide)⟩

/-- Once the page number reaches `number_of_pages`, `read_page` fails and
the `find_by` loop contributes nothing more, whatever its remaining
budget. -/
theorem findByGo_none (c : Collection) (filter : MyDocument → Bool) :
    ∀ fuel i, c.collection_file.number_of_pages ≤ i → findByGo c filter i fuel = [] := by
  intro fuel
  induction fuel with
  | zero => intro i _; rfl
  | succ fuel _ =>
    intro i hi
    rw [findByGo, read_page, if_pos hi]

/-- Any iteration budget covering the pages from the current position
gives the same `find_by` scan result as the exact budget. -/
theorem findByGo_fuel (c : Collection) (filter : MyDocument → Bool) :
    ∀ fuel extra i, c.collection_file.number_of_pages ≤ i + fuel →
      findByGo c filter i (fuel + extra) = findByGo c filter i fuel := by
  intro fuel
  induction fuel with
  | zero =>
    intro extra i hi
    simp only [Nat.zero_add]
    rw [findByGo_none c filter extra i (by omega), findByGo_none c filter 0 i (by omega)]
  | succ fuel ih =>
    intro extra i hi
    rw [show fuel + 1 + extra = (fuel + extra) + 1 from by omega]
    rw [findByGo, findByGo]
    cases hrp : read_page c.collection_file i with
    | error e => rfl
    | ok q => rw [ih extra (i + 1) (by omega)]

/-- C10: confirmed.  The `find_by` page-scanning loop performs at most
`number_of_pages` iterations: any extra iteration budget beyond
`number_of_pages` changes nothing, because `read_page` fails with
`PageNumberTooHighError` for every page number at or past
`number_of_pages`, which ends the loop. -/
theorem find_by_scan_bounded_by_number_of_pages (c : Collection)
    (filter : MyDocument → Bool) (extra k : Nat) :
    findByGo c filter 0 (c.collection_file.number_of_pages + extra) = find_by c filter ∧
    read_page c.collection_file (c.collection_file.number_of_pages + k)
      = .error .PageNumberTooHighError := by
  constructor
  · rw [find_by]
    exact findByGo_fuel c filter c.collection_file.number_of_pages extra 0 (by omega)
  · rw [read_page, if_pos (by omega)]
